import Mathlib

/-!
Verification of the length/point arithmetic in `src/runtime/length.h` of
the tree-sitter runtime.  `TSLength` and `TSPoint` are structs of two
`size_t` fields; all arithmetic is C unsigned arithmetic, which we embed
as natural-number arithmetic modulo `2 ^ 64`.
-/

/-- The modulus of `size_t` arithmetic: `2 ^ 64` written as a literal. -/
def USIZE : Nat := 18446744073709551616

/-- C unsigned addition of two `size_t` values. -/
def uadd (a b : Nat) : Nat := (a + b) % USIZE

/-- C unsigned subtraction of two `size_t` values; wraps on underflow. -/
def usub (a b : Nat) : Nat := (a % USIZE + (USIZE - b % USIZE)) % USIZE

/-- `TSLength`: a distance through source code, in bytes and in characters. -/
structure TSLength where
  bytes : Nat
  chars : Nat
deriving DecidableEq, Repr

/-- `TSPoint`: a position in source code, as a line and a column. -/
structure TSPoint where
  line : Nat
  column : Nat
deriving DecidableEq, Repr

/-- A `TSLength` is representable as a pair of `size_t` fields. -/
def TSLength.WF (l : TSLength) : Prop := l.bytes < USIZE ∧ l.chars < USIZE

instance (l : TSLength) : Decidable l.WF :=
  inferInstanceAs (Decidable (_ ∧ _))

/-- A `TSPoint` is representable as a pair of `size_t` fields. -/
def TSPoint.WF (p : TSPoint) : Prop := p.line < USIZE ∧ p.column < USIZE

instance (p : TSPoint) : Decidable p.WF :=
  inferInstanceAs (Decidable (_ ∧ _))

/-- The indeterminate marker: a character count with a zero byte count. -/
def TSLength.indeterminate (l : TSLength) : Prop := 0 < l.chars ∧ l.bytes = 0

instance (l : TSLength) : Decidable l.indeterminate :=
  inferInstanceAs (Decidable (_ ∧ _))

/-- `ts_length_add` from `src/runtime/length.h`: componentwise unsigned sum,
with the bytes field forced to 0 when either operand is indeterminate. -/
def ts_length_add (len1 len2 : TSLength) : TSLength :=
  let result : TSLength :=
    { bytes := uadd len1.bytes len2.bytes, chars := uadd len1.chars len2.chars }
  if (0 < len1.chars ∧ len1.bytes = 0) ∨ (0 < len2.chars ∧ len2.bytes = 0) then
    { result with bytes := 0 }
  else
    result

/-- `ts_length_sub` from `src/runtime/length.h`: componentwise unsigned
difference, with the bytes field forced to 0 when either operand is
indeterminate. -/
def ts_length_sub (len1 len2 : TSLength) : TSLength :=
  let result : TSLength :=
    { bytes := usub len1.bytes len2.bytes, chars := usub len1.chars len2.chars }
  if (0 < len1.chars ∧ len1.bytes = 0) ∨ (0 < len2.chars ∧ len2.bytes = 0) then
    { result with bytes := 0 }
  else
    result

/-- `ts_point_add` from `src/runtime/length.h`: lines always add; the column
adds only when the displacement stays on one line, otherwise it is the
displacement's own column. -/
def ts_point_add (point1 point2 : TSPoint) : TSPoint :=
  let line := uadd point1.line point2.line
  let column :=
    if point2.line = 0 then uadd point1.column point2.column
    else point2.column
  { line := line, column := column }

/-- `ts_point_sub` from `src/runtime/length.h`: on the same line the columns
are differenced; across lines the lines are differenced and `point1`'s
column is kept verbatim. -/
def ts_point_sub (point1 point2 : TSPoint) : TSPoint :=
  if point1.line = point2.line then
    { line := 0, column := usub point1.column point2.column }
  else
    { line := usub point1.line point2.line, column := point1.column }

/-- `ts_length_zero` from `src/runtime/length.h`. -/
def ts_length_zero : TSLength := { bytes := 0, chars := 0 }

/-- `ts_length_eq` from `src/runtime/length.h`. -/
def ts_length_eq (len1 len2 : TSLength) : Bool :=
  len1.bytes == len2.bytes && len1.chars == len2.chars

/-- `ts_point_zero` from `src/runtime/length.h`: line 1, column 1. -/
def ts_point_zero : TSPoint := { line := 1, column := 1 }

/-- `ts_point_make` from `src/runtime/length.h`. -/
def ts_point_make (line column : Nat) : TSPoint :=
  { line := line, column := column }

/-- `ts_length_make` from `src/runtime/length.h`. -/
def ts_length_make (bytes chars : Nat) : TSLength :=
  { bytes := bytes, chars := chars }

/-! ### Helper lemmas -/

theorem uadd_comm (a b : Nat) : uadd a b = uadd b a := by
  unfold uadd
  rw [Nat.add_comm]

theorem uadd_small (a : Nat) (h : a < USIZE) : uadd a 0 = a := by
  unfold uadd USIZE at *
  omega

theorem usub_zero_small (a : Nat) (h : a < USIZE) : usub a 0 = a := by
  unfold usub USIZE at *
  omega

theorem usub_of_le (a b : Nat) (ha : a < USIZE) (hb : b ≤ a) : usub a b = a - b := by
  unfold usub USIZE at *
  omega

/-! ### Claim theorems -/

/-- C1: when either operand of `ts_length_add` or `ts_length_sub` is
indeterminate (chars > 0 and bytes = 0), the result's bytes field is 0 and
its chars field is still the raw (machine) sum, respectively difference,
of the operands' chars fields. -/
theorem length_indeterminate_poisoning (a b : TSLength)
    (h : a.indeterminate ∨ b.indeterminate) :
    (ts_length_add a b).bytes = 0 ∧
    (ts_length_add a b).chars = uadd a.chars b.chars ∧
    (ts_length_sub a b).bytes = 0 ∧
    (ts_length_sub a b).chars = usub a.chars b.chars := by
  unfold TSLength.indeterminate at h
  simp only [ts_length_add, ts_length_sub, if_pos h]
  exact ⟨trivial, trivial, trivial, trivial⟩

/-- Witness for C1 at a = (bytes 0, chars 3), b = (bytes 4, chars 2). -/
theorem length_indeterminate_poisoning_witness :
    ((ts_length_make 0 3).indeterminate ∨ (ts_length_make 4 2).indeterminate) ∧
    ((ts_length_add (ts_length_make 0 3) (ts_length_make 4 2)).bytes = 0 ∧
     (ts_length_add (ts_length_make 0 3) (ts_length_make 4 2)).chars =
       uadd (ts_length_make 0 3).chars (ts_length_make 4 2).chars ∧
     (ts_length_sub (ts_length_make 0 3) (ts_length_make 4 2)).bytes = 0 ∧
     (ts_length_sub (ts_length_make 0 3) (ts_length_make 4 2)).chars =
       usub (ts_length_make 0 3).chars (ts_length_make 4 2).chars) :=
  ⟨Or.inl (by decide),
   length_indeterminate_poisoning (ts_length_make 0 3) (ts_length_make 4 2)
     (Or.inl (by decide))⟩

/-- C7: `ts_point_zero` is the point (line 1, column 1), not (0, 0), and it
equals `ts_point_make 1 1`. -/
theorem point_zero_is_one_one :
    ts_point_zero = { line := 1, column := 1 } ∧
    ts_point_zero ≠ { line := 0, column := 0 } ∧
    ts_point_zero = ts_point_make 1 1 :=
  ⟨rfl, by decide, rfl⟩

/-- C8: `ts_length_add` is commutative, including when one or both operands
are indeterminate, because both the componentwise sums and the poisoning
condition are symmetric in the operands. -/
theorem ts_length_add_comm (a b : TSLength) :
    ts_length_add a b = ts_length_add b a := by
  simp only [ts_length_add]
  by_cases h : ((0 < a.chars ∧ a.bytes = 0) ∨ (0 < b.chars ∧ b.bytes = 0))
  · rw [if_pos h, if_pos h.symm]
    simp [uadd_comm a.chars b.chars]
  · rw [if_neg h, if_neg (fun hc => h hc.symm)]
    simp [uadd_comm a.chars b.chars, uadd_comm a.bytes b.bytes]

/-- C9: two determinate lengths, each with bytes ≥ chars and ordered
componentwise, can subtract to an indeterminate result: witnessed by
a = (bytes 5, chars 5) and b = (bytes 5, chars 3). -/
theorem sub_of_determinate_can_be_indeterminate :
    ∃ a b : TSLength, ¬ a.indeterminate ∧ ¬ b.indeterminate ∧
      a.chars ≤ a.bytes ∧ b.chars ≤ b.bytes ∧
      b.bytes ≤ a.bytes ∧ b.chars ≤ a.chars ∧
      (ts_length_sub a b).indeterminate :=
  ⟨ts_length_make 5 5, ts_length_make 5 3, by decide⟩

/-- C2: `ts_point_add` keeps `p1`'s line and adds columns (machine addition)
when the displacement `p2` stays within one line, and otherwise adds lines
(machine addition) and takes `p2`'s column, discarding `p1`'s column. -/
theorem ts_point_add_branch (p1 p2 : TSPoint) (h : p1.line < USIZE) :
    (p2.line = 0 →
      ts_point_add p1 p2 = { line := p1.line, column := uadd p1.column p2.column }) ∧
    (0 < p2.line →
      ts_point_add p1 p2 = { line := uadd p1.line p2.line, column := p2.column }) := by
  constructor
  · intro h0
    simp [ts_point_add, h0, uadd_small p1.line h]
  · intro hpos
    have hne : p2.line ≠ 0 := Nat.pos_iff_ne_zero.mp hpos
    simp [ts_point_add, hne]

/-- Witness for C2 at p1 = (2, 5), p2 = (1, 3), matching the spec example
`add(make(2,5), make(1,3)) == make(3,3)`. -/
theorem ts_point_add_branch_witness :
    (ts_point_make 2 5).line < USIZE ∧
    (((ts_point_make 1 3).line = 0 →
       ts_point_add (ts_point_make 2 5) (ts_point_make 1 3) =
         { line := (ts_point_make 2 5).line,
           column := uadd (ts_point_make 2 5).column (ts_point_make 1 3).column }) ∧
     (0 < (ts_point_make 1 3).line →
       ts_point_add (ts_point_make 2 5) (ts_point_make 1 3) =
         { line := uadd (ts_point_make 2 5).line (ts_point_make 1 3).line,
           column := (ts_point_make 1 3).column })) ∧
    ts_point_add (ts_point_make 2 5) (ts_point_make 1 3) = ts_point_make 3 3 :=
  ⟨by decide, ts_point_add_branch (ts_point_make 2 5) (ts_point_make 1 3) (by decide),
   by decide⟩

/-- C3: `ts_point_sub` differences the columns on the same line (line 0 in
the result), and across lines it differences the lines and keeps `p1`'s own
column verbatim. -/
theorem ts_point_sub_branch (p1 p2 : TSPoint) :
    (p1.line = p2.line →
      ts_point_sub p1 p2 = { line := 0, column := usub p1.column p2.column }) ∧
    (p1.line ≠ p2.line →
      ts_point_sub p1 p2 = { line := usub p1.line p2.line, column := p1.column }) := by
  constructor
  · intro h
    simp [ts_point_sub, h]
  · intro h
    simp [ts_point_sub, h]

/-- Witness for C3 at p1 = (4, 10), p2 = (2, 3), matching the spec example
`sub(make(4,10), make(2,3)) == make(2,10)`. -/
theorem ts_point_sub_branch_witness :
    (ts_point_make 4 10).line ≠ (ts_point_make 2 3).line ∧
    ts_point_sub (ts_point_make 4 10) (ts_point_make 2 3) =
      { line := usub (ts_point_make 4 10).line (ts_point_make 2 3).line,
        column := (ts_point_make 4 10).column } ∧
    ts_point_sub (ts_point_make 4 10) (ts_point_make 2 3) = ts_point_make 2 10 :=
  ⟨by decide,
   (ts_point_sub_branch (ts_point_make 4 10) (ts_point_make 2 3)).2 (by decide),
   by decide⟩

/-- C4: the zero length is a two-sided identity for both `ts_length_add` and
`ts_length_sub` on every representable length, indeterminate ones included. -/
theorem length_zero_identity (a : TSLength) (h : a.WF) :
    ts_length_add a ts_length_zero = a ∧ ts_length_sub a ts_length_zero = a := by
  obtain ⟨ab, ac⟩ := a
  obtain ⟨hb, hc⟩ := h
  unfold USIZE at hb hc
  constructor
  · simp only [ts_length_add, ts_length_zero]
    split
    case isTrue hi =>
      simp only [uadd, USIZE, TSLength.mk.injEq] at *
      omega
    case isFalse hi =>
      simp only [uadd, USIZE, TSLength.mk.injEq] at *
      omega
  · simp only [ts_length_sub, ts_length_zero]
    split
    case isTrue hi =>
      simp only [usub, USIZE, TSLength.mk.injEq] at *
      omega
    case isFalse hi =>
      simp only [usub, USIZE, TSLength.mk.injEq] at *
      omega

/-- Witness for C4 at the indeterminate length (bytes 0, chars 3). -/
theorem length_zero_identity_witness :
    (ts_length_make 0 3).WF ∧
    ts_length_add (ts_length_make 0 3) ts_length_zero = ts_length_make 0 3 ∧
    ts_length_sub (ts_length_make 0 3) ts_length_zero = ts_length_make 0 3 :=
  ⟨by decide, length_zero_identity (ts_length_make 0 3) (by decide)⟩

/-- C10: the point origin (1, 1) is not a right identity for `ts_point_add`:
adding it bumps the line by 1 (machine addition) and resets the column to 1,
so the result always differs from `p`; the actual right identity is the
point (0, 0). -/
theorem point_zero_not_identity (p : TSPoint) (h : p.WF) :
    (ts_point_add p ts_point_zero).line = (p.line + 1) % USIZE ∧
    (ts_point_add p ts_point_zero).column = 1 ∧
    ts_point_add p ts_point_zero ≠ p ∧
    ts_point_add p (ts_point_make 0 0) = p := by
  obtain ⟨pl, pc⟩ := p
  obtain ⟨hl, hc⟩ := h
  unfold USIZE at hl hc
  refine ⟨?_, ?_, ?_, ?_⟩
  · simp [ts_point_add, ts_point_zero, uadd]
  · simp [ts_point_add, ts_point_zero]
  · intro heq
    simp only [ts_point_add, ts_point_zero, TSPoint.mk.injEq] at heq
    obtain ⟨h1, h2⟩ := heq
    simp only [uadd, USIZE] at h1
    omega
  · simp only [ts_point_add, ts_point_make, TSPoint.mk.injEq]
    constructor
    · simpa [uadd, USIZE] using Nat.mod_eq_of_lt hl
    · simpa [uadd, USIZE] using Nat.mod_eq_of_lt hc

/-- Witness for C10 at p = (2, 5). -/
theorem point_zero_not_identity_witness :
    (ts_point_make 2 5).WF ∧
    ((ts_point_add (ts_point_make 2 5) ts_point_zero).line =
       ((ts_point_make 2 5).line + 1) % USIZE ∧
     (ts_point_add (ts_point_make 2 5) ts_point_zero).column = 1 ∧
     ts_point_add (ts_point_make 2 5) ts_point_zero ≠ ts_point_make 2 5 ∧
     ts_point_add (ts_point_make 2 5) (ts_point_make 0 0) = ts_point_make 2 5) :=
  ⟨by decide, point_zero_not_identity (ts_point_make 2 5) (by decide)⟩

/-- C5 fails as stated: a = (bytes 5, chars 5) and b = (bytes 5, chars 3)
each satisfy bytes ≥ chars, are not indeterminate, and a ≥ b componentwise,
yet `ts_length_sub a b` = (bytes 0, chars 2) violates bytes ≥ chars. -/
theorem length_invariant_counterexample :
    (ts_length_make 5 5).chars ≤ (ts_length_make 5 5).bytes ∧
    (ts_length_make 5 3).chars ≤ (ts_length_make 5 3).bytes ∧
    ¬ (ts_length_make 5 5).indeterminate ∧
    ¬ (ts_length_make 5 3).indeterminate ∧
    (ts_length_make 5 3).bytes ≤ (ts_length_make 5 5).bytes ∧
    (ts_length_make 5 3).chars ≤ (ts_length_make 5 5).chars ∧
    ¬ ((ts_length_sub (ts_length_make 5 5) (ts_length_make 5 3)).chars ≤
       (ts_length_sub (ts_length_make 5 5) (ts_length_make 5 3)).bytes) := by
  decide

/-- C5 amended: for well-formed non-indeterminate operands with
bytes ≥ chars, `ts_length_add` preserves bytes ≥ chars provided the byte
total does not overflow, and `ts_length_sub` preserves it for a ≥ b
componentwise provided additionally b's byte-over-char surplus is at most
a's surplus. -/
theorem length_invariant_preservation (a b : TSLength)
    (ha : a.WF) (hb : b.WF)
    (hia : a.chars ≤ a.bytes) (hib : b.chars ≤ b.bytes)
    (hna : ¬ a.indeterminate) (hnb : ¬ b.indeterminate) :
    (a.bytes + b.bytes < USIZE →
      (ts_length_add a b).chars ≤ (ts_length_add a b).bytes) ∧
    (b.bytes ≤ a.bytes → b.chars ≤ a.chars →
      b.bytes - b.chars ≤ a.bytes - a.chars →
      (ts_length_sub a b).chars ≤ (ts_length_sub a b).bytes) := by
  obtain ⟨ab, ac⟩ := a
  obtain ⟨bb, bc⟩ := b
  simp only [TSLength.WF, TSLength.indeterminate, ts_length_add, ts_length_sub,
    uadd, usub, USIZE] at *
  constructor
  · intro hov
    split <;> dsimp only <;> omega
  · intro h1 h2 h3
    split <;> dsimp only <;> omega

/-- Witness for the amended C5 at a = (bytes 10, chars 4), b = (bytes 3, chars 2). -/
theorem length_invariant_preservation_witness :
    (ts_length_make 10 4).WF ∧ (ts_length_make 3 2).WF ∧
    (ts_length_make 10 4).chars ≤ (ts_length_make 10 4).bytes ∧
    (ts_length_make 3 2).chars ≤ (ts_length_make 3 2).bytes ∧
    ¬ (ts_length_make 10 4).indeterminate ∧
    ¬ (ts_length_make 3 2).indeterminate ∧
    (((ts_length_make 10 4).bytes + (ts_length_make 3 2).bytes < USIZE →
       (ts_length_add (ts_length_make 10 4) (ts_length_make 3 2)).chars ≤
         (ts_length_add (ts_length_make 10 4) (ts_length_make 3 2)).bytes) ∧
     ((ts_length_make 3 2).bytes ≤ (ts_length_make 10 4).bytes →
      (ts_length_make 3 2).chars ≤ (ts_length_make 10 4).chars →
      (ts_length_make 3 2).bytes - (ts_length_make 3 2).chars ≤
        (ts_length_make 10 4).bytes - (ts_length_make 10 4).chars →
       (ts_length_sub (ts_length_make 10 4) (ts_length_make 3 2)).chars ≤
         (ts_length_sub (ts_length_make 10 4) (ts_length_make 3 2)).bytes)) :=
  ⟨by decide, by decide, by decide, by decide, by decide, by decide,
   length_invariant_preservation (ts_length_make 10 4) (ts_length_make 3 2)
     (by decide) (by decide) (by decide) (by decide) (by decide) (by decide)⟩

/-- C6: subtraction never checks for underflow and silently wraps modulo
2^64: the chars field of `ts_length_sub` (always), its bytes field (when
neither operand is indeterminate), and the differenced field of
`ts_point_sub` in each branch, all equal the mathematical difference
reduced modulo 2^64. -/
theorem sub_wraps_mod (a b : TSLength) (p1 p2 : TSPoint)
    (ha : a.WF) (hb : b.WF) (hp1 : p1.WF) (hp2 : p2.WF) :
    ((ts_length_sub a b).chars : Int) =
      ((a.chars : Int) - (b.chars : Int)) % (USIZE : Int) ∧
    (¬ a.indeterminate → ¬ b.indeterminate →
      ((ts_length_sub a b).bytes : Int) =
        ((a.bytes : Int) - (b.bytes : Int)) % (USIZE : Int)) ∧
    (p1.line = p2.line →
      ((ts_point_sub p1 p2).column : Int) =
        ((p1.column : Int) - (p2.column : Int)) % (USIZE : Int)) ∧
    (p1.line ≠ p2.line →
      ((ts_point_sub p1 p2).line : Int) =
        ((p1.line : Int) - (p2.line : Int)) % (USIZE : Int)) := by
  obtain ⟨ab, ac⟩ := a
  obtain ⟨bb, bc⟩ := b
  obtain ⟨l1, c1⟩ := p1
  obtain ⟨l2, c2⟩ := p2
  simp only [TSLength.WF, TSPoint.WF, TSLength.indeterminate, ts_length_sub,
    ts_point_sub, usub, USIZE] at *
  refine ⟨?_, ?_, ?_, ?_⟩
  · split <;> dsimp only <;> omega
  · intro hna hnb
    split <;> dsimp only <;> omega
  · intro hl
    rw [if_pos hl]
    dsimp only
    omega
  · intro hl
    rw [if_neg hl]
    dsimp only
    omega

/-- Witness for C6 at a = (3, 1), b = (5, 4), p1 = (7, 2), p2 = (7, 9). -/
theorem sub_wraps_mod_witness :
    (ts_length_make 3 1).WF ∧ (ts_length_make 5 4).WF ∧
    (ts_point_make 7 2).WF ∧ (ts_point_make 7 9).WF ∧
    (((ts_length_sub (ts_length_make 3 1) (ts_length_make 5 4)).chars : Int) =
       (((ts_length_make 3 1).chars : Int) - ((ts_length_make 5 4).chars : Int)) %
         (USIZE : Int) ∧
     (¬ (ts_length_make 3 1).indeterminate → ¬ (ts_length_make 5 4).indeterminate →
       ((ts_length_sub (ts_length_make 3 1) (ts_length_make 5 4)).bytes : Int) =
         (((ts_length_make 3 1).bytes : Int) - ((ts_length_make 5 4).bytes : Int)) %
           (USIZE : Int)) ∧
     ((ts_point_make 7 2).line = (ts_point_make 7 9).line →
       ((ts_point_sub (ts_point_make 7 2) (ts_point_make 7 9)).column : Int) =
         (((ts_point_make 7 2).column : Int) - ((ts_point_make 7 9).column : Int)) %
           (USIZE : Int)) ∧
     ((ts_point_make 7 2).line ≠ (ts_point_make 7 9).line →
       ((ts_point_sub (ts_point_make 7 2) (ts_point_make 7 9)).line : Int) =
         (((ts_point_make 7 2).line : Int) - ((ts_point_make 7 9).line : Int)) %
           (USIZE : Int))) :=
  ⟨by decide, by decide, by decide, by decide,
   sub_wraps_mod (ts_length_make 3 1) (ts_length_make 5 4)
     (ts_point_make 7 2) (ts_point_make 7 9)
     (by decide) (by decide) (by decide) (by decide)⟩
